import Mathlib

/-!
Verification of the SQANTI3 filter (src/sqanti3_filter.py): a shallow embedding
of its data model, the rules decision policy, the companion-file filter
propagator (filter_files), the validation steps of main, and the inclusion-list
reader of run_ML, together with theorems settling the behavioural claims.
-/

namespace Sqanti3

/-! ## Data model -/

/-- Structural category labels of the classification table (spec section 3).
The source dispatches on the category text; unknown stands for any label
outside the closed set named by the spec. -/
inductive StructuralCategory where
  | FSM
  | ISM
  | NIC
  | NNC
  | antisense
  | intergenic
  | genic
  | genic_intron
  | fusion
  | unknown
  deriving DecidableEq, Repr

/-- One row of the SQANTI3 classification table, with the pre-thresholded
boolean attributes the decision policy consumes (spec section 3). Junction
coverage and 3-prime distance use an Option for the not-applicable sentinel. -/
structure IsoformRecord where
  id : String
  structural_category : StructuralCategory
  intrapriming : Bool
  has_polyA_motif : Bool
  is_RT_switching : Bool
  all_junctions_canonical : Bool
  all_junctions_short_read_supported : Bool
  min_junction_coverage : Option Int
  is_mono_exonic : Bool
  distance_to_annotated_3prime_end : Option Int
  deriving DecidableEq, Repr

/-- Rules-strategy configuration (spec section 3). The threshold fields feed
the pre-computed booleans of IsoformRecord; only filter_mono_exonic is read
by the decision policy itself. -/
structure RulesParameters where
  intrapriming_adenine_threshold : ℚ
  run_A_length_threshold : Int
  min_junction_coverage : Int
  max_distance_to_known_3prime_end : Int
  filter_mono_exonic : Bool
  deriving DecidableEq, Repr

/-! ## Rules decision policy

The function run_rules is called at line 227 of src/sqanti3_filter.py but is
defined nowhere in the module; only its caller and the module docstring
(lines 8-12) describe the policy. The decision engine is therefore modelled
from the spec. -/

/-- Modelled from the spec: the category-specific test of the Rules Decision
Engine (spec section 4.2), whose implementation run_rules is missing from
src/sqanti3_filter.py. FSM, ISM and NIC keep unless unrescued intrapriming;
NNC, antisense, intergenic and genic additionally require no RT switching and
junction support; every other category is discarded (closed-world default). -/
def category_keep (r : IsoformRecord) : Bool :=
  match r.structural_category with
  | .FSM | .ISM | .NIC => !r.intrapriming || r.has_polyA_motif
  | .NNC | .antisense | .intergenic | .genic =>
      (!r.intrapriming || r.has_polyA_motif) && !r.is_RT_switching &&
        (r.all_junctions_canonical || r.all_junctions_short_read_supported)
  | _ => false

/-- Modelled from the spec: the full Rules Decision Engine verdict
(spec section 4.2), the cross-cutting mono-exonic modifier applied after the
category-specific test, regardless of category. -/
def rules_keep (p : RulesParameters) (r : IsoformRecord) : Bool :=
  if p.filter_mono_exonic && r.is_mono_exonic then false else category_keep r

/-! ## Claims C1 and C2 -/

/-- C1: for every isoform record whose structural category is FSM, ISM or NIC,
the Rules Decision Engine keeps the record iff it does not have intrapriming
or has a polyA motif, setting aside the mono-exonic modifier. -/
theorem C1_fsm_ism_nic_keep_iff (p : RulesParameters) (r : IsoformRecord)
    (hcat : r.structural_category = StructuralCategory.FSM ∨
            r.structural_category = StructuralCategory.ISM ∨
            r.structural_category = StructuralCategory.NIC)
    (hmono : ¬(p.filter_mono_exonic = true ∧ r.is_mono_exonic = true)) :
    rules_keep p r = true ↔ (¬ r.intrapriming = true ∨ r.has_polyA_motif = true) := by
  have hm : (p.filter_mono_exonic && r.is_mono_exonic) = false := by
    cases hp : p.filter_mono_exonic <;> cases hq : r.is_mono_exonic <;> simp_all
  rcases hcat with h | h | h <;>
    simp [rules_keep, hm, category_keep, h]

def c1Record : IsoformRecord :=
  { id := "PB.1.1"
    structural_category := .NIC
    intrapriming := true
    has_polyA_motif := true
    is_RT_switching := false
    all_junctions_canonical := true
    all_junctions_short_read_supported := false
    min_junction_coverage := some 5
    is_mono_exonic := false
    distance_to_annotated_3prime_end := some 12 }

def defaultParams : RulesParameters :=
  { intrapriming_adenine_threshold := 6/10
    run_A_length_threshold := 6
    min_junction_coverage := 3
    max_distance_to_known_3prime_end := 50
    filter_mono_exonic := false }

/-- Witness for C1: a concrete NIC record with intrapriming rescued by a polyA
motif is kept. -/
theorem C1_fsm_ism_nic_keep_iff_witness :
    c1Record.structural_category = StructuralCategory.NIC ∧
    (rules_keep defaultParams c1Record = true ↔
      (¬ c1Record.intrapriming = true ∨ c1Record.has_polyA_motif = true)) :=
  ⟨rfl, C1_fsm_ism_nic_keep_iff defaultParams c1Record (Or.inr (Or.inr rfl))
    (by decide)⟩

def c2MonoRecord : IsoformRecord :=
  { id := "PB.2.1"
    structural_category := .NNC
    intrapriming := false
    has_polyA_motif := false
    is_RT_switching := false
    all_junctions_canonical := true
    all_junctions_short_read_supported := false
    min_junction_coverage := none
    is_mono_exonic := true
    distance_to_annotated_3prime_end := none }

def monoParams : RulesParameters :=
  { intrapriming_adenine_threshold := 6/10
    run_A_length_threshold := 6
    min_junction_coverage := 3
    max_distance_to_known_3prime_end := 50
    filter_mono_exonic := true }

/-- Counterexample to C2 as stated: an NNC record satisfying all three
conditions is nonetheless discarded when the mono-exonic modifier applies,
so keep is not equivalent to the three-way conjunction alone. -/
theorem C2_counterexample_mono_exonic :
    c2MonoRecord.structural_category = StructuralCategory.NNC ∧
    (¬ c2MonoRecord.intrapriming = true ∨ c2MonoRecord.has_polyA_motif = true) ∧
    c2MonoRecord.is_RT_switching = false ∧
    (c2MonoRecord.all_junctions_canonical = true ∨
      c2MonoRecord.all_junctions_short_read_supported = true) ∧
    rules_keep monoParams c2MonoRecord = false := by
  refine ⟨rfl, ?_, rfl, ?_, ?_⟩ <;> decide

/-- C2 amended: for every isoform record whose structural category is NNC,
antisense, intergenic or genic, the Rules Decision Engine keeps the record iff
it has no unrescued intrapriming, is not RT-switching, and all junctions are
canonical or short-read supported — setting aside the mono-exonic modifier. -/
theorem C2_nnc_like_keep_iff (p : RulesParameters) (r : IsoformRecord)
    (hcat : r.structural_category = StructuralCategory.NNC ∨
            r.structural_category = StructuralCategory.antisense ∨
            r.structural_category = StructuralCategory.intergenic ∨
            r.structural_category = StructuralCategory.genic)
    (hmono : ¬(p.filter_mono_exonic = true ∧ r.is_mono_exonic = true)) :
    rules_keep p r = true ↔
      ((¬ r.intrapriming = true ∨ r.has_polyA_motif = true) ∧
        r.is_RT_switching = false ∧
        (r.all_junctions_canonical = true ∨
          r.all_junctions_short_read_supported = true)) := by
  have hm : (p.filter_mono_exonic && r.is_mono_exonic) = false := by
    cases hp : p.filter_mono_exonic <;> cases hq : r.is_mono_exonic <;> simp_all
  rcases hcat with h | h | h | h <;>
    simp [rules_keep, hm, category_keep, h] <;>
    cases hrt : r.is_RT_switching <;> simp

def c2MultiRecord : IsoformRecord :=
  { id := "PB.2.2"
    structural_category := .NNC
    intrapriming := false
    has_polyA_motif := false
    is_RT_switching := false
    all_junctions_canonical := false
    all_junctions_short_read_supported := true
    min_junction_coverage := some 7
    is_mono_exonic := false
    distance_to_annotated_3prime_end := none }

/-- Witness for the amended C2: a concrete multi-exonic NNC record with
short-read supported junctions is kept exactly by the three-way test. -/
theorem C2_nnc_like_keep_iff_witness :
    c2MultiRecord.structural_category = StructuralCategory.NNC ∧
    (rules_keep defaultParams c2MultiRecord = true ↔
      ((¬ c2MultiRecord.intrapriming = true ∨ c2MultiRecord.has_polyA_motif = true) ∧
        c2MultiRecord.is_RT_switching = false ∧
        (c2MultiRecord.all_junctions_canonical = true ∨
          c2MultiRecord.all_junctions_short_read_supported = true))) :=
  ⟨rfl, C2_nnc_like_keep_iff defaultParams c2MultiRecord (Or.inl rfl) (by decide)⟩

/-! ## Companion-file filter propagator (filter_files, lines 41-82)

The file system is abstracted: each Option field of FilterInputs is the parsed
content of the corresponding companion-file argument, none when the argument
is absent. Outputs are kept structured at the record level, the level at which
the source tests membership and writes. -/

/-- One sequence record as exposed by SeqIO.parse: an identifier, the full
description line, and the sequence text. -/
structure SeqRecord where
  id : String
  description : String
  seq : String
  deriving DecidableEq, Repr

/-- The sequence companion file: its raw first line (read at line 47 to detect
the container type) and its parsed records. -/
structure SeqFile where
  firstLine : String
  records : List SeqRecord
  deriving DecidableEq, Repr

/-- One collapsed GFF group as exposed by collapseGFFReader: all feature lines
of one isoform, keyed by seqid, written atomically by
write_collapseGFF_format. -/
structure GffRecord where
  seqid : String
  feature_lines : List String
  deriving DecidableEq, Repr

/-- One SAM body record as exposed by GMAPSAMReader: the query identifier and
the raw record line. -/
structure SamRecord where
  qID : String
  record_line : String
  deriving DecidableEq, Repr

/-- The alignment companion file: header block plus body records. -/
structure SamFile where
  header : String
  records : List SamRecord
  deriving DecidableEq, Repr

/-- The companion-file arguments of filter_files; none models an absent
command-line argument. -/
structure FilterInputs where
  isoforms : Option SeqFile
  gtf : Option (List GffRecord)
  sam : Option SamFile
  faa : Option (List SeqRecord)
  deriving DecidableEq, Repr

/-- Output of the sequence branch: the file name, the encoding passed to
SeqIO.write, and the records written. -/
structure SeqOut where
  filename : String
  encoding : String
  records : List SeqRecord
  deriving DecidableEq, Repr

/-- Output of the GTF branch. -/
structure GtfOut where
  filename : String
  records : List GffRecord
  deriving DecidableEq, Repr

/-- Output of the SAM branch: the header written first, then the body records
each written as record_line plus a newline. -/
structure SamOut where
  filename : String
  header : String
  body : List SamRecord
  deriving DecidableEq, Repr

/-- Output of the FAA branch: records re-emitted in normalized two-line form. -/
structure FaaOut where
  filename : String
  records : List SeqRecord
  deriving DecidableEq, Repr

/-- The four output artifacts of filter_files; none when the corresponding
companion-file argument was absent. -/
structure FilterOutputs where
  fasta_out : Option SeqOut
  gtf_out : Option GtfOut
  sam_out : Option SamOut
  faa_out : Option FaaOut
  deriving DecidableEq, Repr

/-- Embedding of filter_files (lines 41-82): pfx is args.dir ++ "/" ++
args.output; each present companion file is streamed and a record is emitted
exactly when its identifier is in ids_to_keep, in input order. The sequence
branch detects fastq by a first line starting with the at-sign, otherwise
fasta, and writes with that same encoding. The SAM branch writes the header
unconditionally before filtering the body by qID. -/
def filter_files (pfx : String) (ids_to_keep : List String)
    (inp : FilterInputs) : FilterOutputs :=
  { fasta_out := inp.isoforms.map (fun file =>
      let fafq_type := if file.firstLine.startsWith "@" then "fastq" else "fasta"
      { filename := pfx ++ ".filtered." ++ fafq_type
        encoding := fafq_type
        records := file.records.filter (fun r => decide (r.id ∈ ids_to_keep)) })
    gtf_out := inp.gtf.map (fun rs =>
      { filename := pfx ++ ".filtered.gtf"
        records := rs.filter (fun r => decide (r.seqid ∈ ids_to_keep)) })
    sam_out := inp.sam.map (fun file =>
      { filename := pfx ++ ".filtered.sam"
        header := file.header
        body := file.records.filter (fun r => decide (r.qID ∈ ids_to_keep)) })
    faa_out := inp.faa.map (fun rs =>
      { filename := pfx ++ ".filtered.faa"
        records := rs.filter (fun r => decide (r.id ∈ ids_to_keep)) }) }

/-- The text the SAM branch actually writes (lines 69-72): the header verbatim,
then each retained record line followed by a newline. -/
def sam_contents (o : SamOut) : String :=
  o.header ++ String.join (o.body.map (fun r => r.record_line ++ "\n"))

/-- The text the FAA branch actually writes (line 81): each retained record in
normalized two-line form, a description line then the sequence line. -/
def faa_contents (o : FaaOut) : String :=
  String.join (o.records.map (fun r => ">" ++ r.description ++ "\n" ++ r.seq ++ "\n"))

theorem fasta_out_eq (pfx : String) (ids : List String) (inp : FilterInputs)
    (fa : SeqFile) (hfa : inp.isoforms = some fa) :
    (filter_files pfx ids inp).fasta_out = some
      { filename := pfx ++ ".filtered." ++
          (if fa.firstLine.startsWith "@" then "fastq" else "fasta")
        encoding := if fa.firstLine.startsWith "@" then "fastq" else "fasta"
        records := fa.records.filter (fun r => decide (r.id ∈ ids)) } := by
  simp [filter_files, hfa]

theorem gtf_out_eq (pfx : String) (ids : List String) (inp : FilterInputs)
    (g : List GffRecord) (hg : inp.gtf = some g) :
    (filter_files pfx ids inp).gtf_out = some
      { filename := pfx ++ ".filtered.gtf"
        records := g.filter (fun r => decide (r.seqid ∈ ids)) } := by
  simp [filter_files, hg]

theorem sam_out_eq (pfx : String) (ids : List String) (inp : FilterInputs)
    (s : SamFile) (hs : inp.sam = some s) :
    (filter_files pfx ids inp).sam_out = some
      { filename := pfx ++ ".filtered.sam"
        header := s.header
        body := s.records.filter (fun r => decide (r.qID ∈ ids)) } := by
  simp [filter_files, hs]

theorem faa_out_eq (pfx : String) (ids : List String) (inp : FilterInputs)
    (aa : List SeqRecord) (haa : inp.faa = some aa) :
    (filter_files pfx ids inp).faa_out = some
      { filename := pfx ++ ".filtered.faa"
        records := aa.filter (fun r => decide (r.id ∈ ids)) } := by
  simp [filter_files, haa]

/-! ## Claims C3, C6, C7 and C9 -/

/-- C3: for every companion file, the filtered output body is exactly the
subsequence of the input records whose identifier is retained, in input order:
each output list is a sublist of its input, and a record appears in the output
iff it appears in the input with a retained identifier. -/
theorem C3_outputs_are_retained_subsequences (pfx : String)
    (ids : List String) (inp : FilterInputs)
    (fa : SeqFile) (g : List GffRecord) (s : SamFile) (aa : List SeqRecord)
    (hfa : inp.isoforms = some fa) (hg : inp.gtf = some g)
    (hs : inp.sam = some s) (haa : inp.faa = some aa) :
    (∃ o, (filter_files pfx ids inp).fasta_out = some o ∧
      o.records.Sublist fa.records ∧
      (∀ r, r ∈ o.records ↔ r ∈ fa.records ∧ r.id ∈ ids)) ∧
    (∃ o, (filter_files pfx ids inp).gtf_out = some o ∧
      o.records.Sublist g ∧
      (∀ r, r ∈ o.records ↔ r ∈ g ∧ r.seqid ∈ ids)) ∧
    (∃ o, (filter_files pfx ids inp).sam_out = some o ∧
      o.body.Sublist s.records ∧
      (∀ r, r ∈ o.body ↔ r ∈ s.records ∧ r.qID ∈ ids)) ∧
    (∃ o, (filter_files pfx ids inp).faa_out = some o ∧
      o.records.Sublist aa ∧
      (∀ r, r ∈ o.records ↔ r ∈ aa ∧ r.id ∈ ids)) := by
  refine ⟨⟨_, fasta_out_eq pfx ids inp fa hfa, List.filter_sublist _, ?_⟩,
          ⟨_, gtf_out_eq pfx ids inp g hg, List.filter_sublist _, ?_⟩,
          ⟨_, sam_out_eq pfx ids inp s hs, List.filter_sublist _, ?_⟩,
          ⟨_, faa_out_eq pfx ids inp aa haa, List.filter_sublist _, ?_⟩⟩ <;>
    intro r <;> simp [List.mem_filter]

def demoIds : List String := ["PB.1.1", "PB.3.1"]

def demoSeqFile : SeqFile :=
  { firstLine := ">PB.1.1"
    records := [⟨"PB.1.1", "PB.1.1 gene=A", "ACGT"⟩,
                ⟨"PB.2.1", "PB.2.1 gene=B", "GGTT"⟩] }

def demoGtf : List GffRecord :=
  [⟨"PB.1.1", ["exon1", "exon2"]⟩, ⟨"PB.2.1", ["exon1"]⟩]

def demoSam : SamFile :=
  { header := "@HD\tVN:1.6\n"
    records := [⟨"PB.1.1", "PB.1.1\t0\tchr1"⟩, ⟨"PB.2.1", "PB.2.1\t0\tchr2"⟩] }

def demoFaa : List SeqRecord :=
  [⟨"PB.1.1", "PB.1.1 ORF", "MK"⟩, ⟨"PB.2.1", "PB.2.1 ORF", "ML"⟩]

def demoInputs : FilterInputs :=
  { isoforms := some demoSeqFile
    gtf := some demoGtf
    sam := some demoSam
    faa := some demoFaa }

/-- Witness for C3 at a concrete run with all four companion files present. -/
theorem C3_outputs_are_retained_subsequences_witness :
    ∃ o, (filter_files "out/demo" demoIds demoInputs).fasta_out = some o ∧
      o.records.Sublist demoSeqFile.records ∧
      (∀ r, r ∈ o.records ↔ r ∈ demoSeqFile.records ∧ r.id ∈ demoIds) :=
  (C3_outputs_are_retained_subsequences "out/demo" demoIds demoInputs
    demoSeqFile demoGtf demoSam demoFaa rfl rfl rfl rfl).1

/-- C6: the SAM branch copies the header verbatim whatever the retention set
is, and emits a body record iff its read identifier is retained; the written
text is the header followed by the retained record lines. -/
theorem C6_sam_header_verbatim_body_filtered (pfx : String)
    (ids : List String) (inp : FilterInputs) (s : SamFile)
    (hs : inp.sam = some s) :
    ∃ o, (filter_files pfx ids inp).sam_out = some o ∧
      o.header = s.header ∧
      (∀ r, r ∈ o.body ↔ r ∈ s.records ∧ r.qID ∈ ids) ∧
      sam_contents o =
        s.header ++ String.join (o.body.map (fun r => r.record_line ++ "\n")) := by
  refine ⟨_, sam_out_eq pfx ids inp s hs, rfl, ?_, rfl⟩
  intro r
  simp [List.mem_filter]

/-- Witness for C6 at a concrete run. -/
theorem C6_sam_header_verbatim_body_filtered_witness :
    ∃ o, (filter_files "out/demo" demoIds demoInputs).sam_out = some o ∧
      o.header = demoSam.header ∧
      (∀ r, r ∈ o.body ↔ r ∈ demoSam.records ∧ r.qID ∈ demoIds) ∧
      sam_contents o =
        demoSam.header ++ String.join (o.body.map (fun r => r.record_line ++ "\n")) :=
  C6_sam_header_verbatim_body_filtered "out/demo" demoIds demoInputs demoSam rfl

/-- C7: the sequence branch selects the fastq encoding exactly when the first
line of the input starts with the at-sign and fasta otherwise, and the output
file carries that same encoding and the matching suffix. -/
theorem C7_fafq_type_detection (pfx : String) (ids : List String)
    (inp : FilterInputs) (fa : SeqFile) (hfa : inp.isoforms = some fa) :
    ∃ o, (filter_files pfx ids inp).fasta_out = some o ∧
      (o.encoding = "fastq" ↔ fa.firstLine.startsWith "@" = true) ∧
      (o.encoding = "fastq" ∨ o.encoding = "fasta") ∧
      o.filename = pfx ++ ".filtered." ++ o.encoding := by
  refine ⟨_, fasta_out_eq pfx ids inp fa hfa, ?_, ?_, rfl⟩ <;>
    by_cases h : fa.firstLine.startsWith "@" = true <;> simp [h]

def fastqFile : SeqFile :=
  { firstLine := "@PB.1.1"
    records := [⟨"PB.1.1", "PB.1.1", "ACGT"⟩] }

/-- Witness for C7 at a concrete fastq input. -/
theorem C7_fafq_type_detection_witness :
    ∃ o, (filter_files "out/demo" demoIds
        { isoforms := some fastqFile, gtf := none, sam := none, faa := none }).fasta_out
        = some o ∧
      (o.encoding = "fastq" ↔ fastqFile.firstLine.startsWith "@" = true) ∧
      (o.encoding = "fastq" ∨ o.encoding = "fasta") ∧
      o.filename = "out/demo" ++ ".filtered." ++ o.encoding :=
  C7_fafq_type_detection "out/demo" demoIds
    { isoforms := some fastqFile, gtf := none, sam := none, faa := none }
    fastqFile rfl

/-- C9: an absent companion-file argument makes filter_files skip that format
(its output is none), and each output of the other formats depends only on its
own input: runs agreeing on one component produce the same output for it. -/
theorem C9_absent_format_skipped_frame (pfx : String) (ids : List String)
    (inp inp2 : FilterInputs) :
    (inp.isoforms = none → (filter_files pfx ids inp).fasta_out = none) ∧
    (inp.gtf = none → (filter_files pfx ids inp).gtf_out = none) ∧
    (inp.sam = none → (filter_files pfx ids inp).sam_out = none) ∧
    (inp.faa = none → (filter_files pfx ids inp).faa_out = none) ∧
    (inp.isoforms = inp2.isoforms →
      (filter_files pfx ids inp).fasta_out = (filter_files pfx ids inp2).fasta_out) ∧
    (inp.gtf = inp2.gtf →
      (filter_files pfx ids inp).gtf_out = (filter_files pfx ids inp2).gtf_out) ∧
    (inp.sam = inp2.sam →
      (filter_files pfx ids inp).sam_out = (filter_files pfx ids inp2).sam_out) ∧
    (inp.faa = inp2.faa →
      (filter_files pfx ids inp).faa_out = (filter_files pfx ids inp2).faa_out) := by
  refine ⟨?_, ?_, ?_, ?_, ?_, ?_, ?_, ?_⟩ <;> intro h <;> simp [filter_files, h]

def gtfOnlyInputs : FilterInputs :=
  { isoforms := none, gtf := some demoGtf, sam := none, faa := none }

/-- Witness for C9: with only the GTF argument given, the other three outputs
are none, and the GTF output agrees with the run that also has a SAM file. -/
theorem C9_absent_format_skipped_frame_witness :
    (filter_files "out/demo" demoIds gtfOnlyInputs).fasta_out = none ∧
    (filter_files "out/demo" demoIds gtfOnlyInputs).sam_out = none ∧
    (filter_files "out/demo" demoIds gtfOnlyInputs).faa_out = none ∧
    (filter_files "out/demo" demoIds gtfOnlyInputs).gtf_out =
      (filter_files "out/demo" demoIds demoInputs).gtf_out := by
  have h := C9_absent_format_skipped_frame "out/demo" demoIds gtfOnlyInputs demoInputs
  exact ⟨h.1 rfl, h.2.2.1 rfl, h.2.2.2.1 rfl, h.2.2.2.2.2.1 rfl⟩

/-! ## Validation steps of main (lines 163-228) -/

/-- Effect of one validation step: whether an error line was printed to stderr
and whether sys.exit was called. -/
structure CheckEffect where
  error_printed : Bool
  exited : Bool
  deriving DecidableEq, Repr

/-- The intrapriming range check at lines 184-185: when the value is below
0.25 or above 1 the error line is printed, but no sys.exit call follows it in
the source (unlike every other validation in main), so execution continues
either way. -/
def intrapriming_check (intrapriming : ℚ) : CheckEffect :=
  if intrapriming < 25/100 ∨ intrapriming > 1 then
    { error_printed := true, exited := false }
  else
    { error_printed := false, exited := false }

/-- C4 evaluated on the code: 0.25 and 1.0 pass the range test, while 0.24
and 1.01 make the error line print — yet in all four cases exited is false,
so an out-of-range value is not rejected fatally and processing continues. -/
theorem C4_intrapriming_check_never_exits :
    intrapriming_check (25/100) = { error_printed := false, exited := false } ∧
    intrapriming_check 1 = { error_printed := false, exited := false } ∧
    intrapriming_check (24/100) = { error_printed := true, exited := false } ∧
    intrapriming_check (101/100) = { error_printed := true, exited := false } ∧
    (∀ q : ℚ, (intrapriming_check q).exited = false) := by
  refine ⟨?_, ?_, ?_, ?_, ?_⟩
  · rw [intrapriming_check, if_neg (by norm_num)]
  · rw [intrapriming_check, if_neg (by norm_num)]
  · rw [intrapriming_check, if_pos (by norm_num)]
  · rw [intrapriming_check, if_pos (by norm_num)]
  · intro q
    rw [intrapriming_check]
    by_cases h : q < 25/100 ∨ q > 1 <;> simp [h]

/-- The command-line namespace attributes relevant to the companion-file
existence checks; an Option String field is the declared path or none. -/
structure Args where
  sqanti_class : String
  isoforms : Option String
  gtf : Option String
  sam : Option String
  faa : Option String
  deriving DecidableEq, Repr

/-- Attribute lookup on the argparse namespace: only attributes the parser
defines exist; looking up any other name raises AttributeError, modelled as
the outer none. -/
def namespace_attr (a : Args) : String → Option (Option String)
  | "isoforms" => some a.isoforms
  | "gtf" => some a.gtf
  | "sam" => some a.sam
  | "faa" => some a.faa
  | _ => none

/-- Outcome of one companion-file existence check. -/
inductive FileCheck where
  | ok : FileCheck
  | exitWithPathMessage (path : String) : FileCheck
  | attributeError (attr : String) : FileCheck
  deriving DecidableEq, Repr

/-- One check of lines 169-183: when the declared path exists the check
passes; otherwise the error message is formatted from the namespace attribute
msgAttr before printing, so a missing attribute aborts with AttributeError and
no message naming the path is ever produced. Formatting the value None would
print the text None. -/
def companion_check (path_exists : String → Bool) (a : Args)
    (declared : Option String) (msgAttr : String) : FileCheck :=
  match declared with
  | none => .ok
  | some p =>
      if path_exists p then .ok
      else
        match namespace_attr a msgAttr with
        | some (some v) => .exitWithPathMessage v
        | some none => .exitWithPathMessage "None"
        | none => .attributeError msgAttr

/-- Sequencing of checks: a failing check stops execution there. -/
def and_then (c : FileCheck) (rest : Unit → FileCheck) : FileCheck :=
  match c with
  | .ok => rest ()
  | r => r

/-- The four companion-file existence checks of lines 169-183 in source
order. The message for a missing isoforms file reads the attribute isoform
(line 170) and the one for a missing GTF reads gtf_file (line 174), neither
of which the parser defines; the SAM and FAA messages read the correct
attributes. -/
def companion_checks (path_exists : String → Bool) (a : Args) : FileCheck :=
  and_then (companion_check path_exists a a.isoforms "isoform") (fun _ =>
    and_then (companion_check path_exists a a.gtf "gtf_file") (fun _ =>
      and_then (companion_check path_exists a a.sam "sam") (fun _ =>
        companion_check path_exists a a.faa "faa")))

def c5Args : Args :=
  { sqanti_class := "cls_classification.txt"
    isoforms := some "iso.fasta"
    gtf := none
    sam := none
    faa := none }

def c5SamArgs : Args :=
  { sqanti_class := "cls_classification.txt"
    isoforms := none
    gtf := none
    sam := some "aln.sam"
    faa := none }

/-- The file system for the C5 evaluation: only the classification table
exists. -/
def c5PathExists : String → Bool := fun p =>
  ["cls_classification.txt"].contains p

/-- C5 evaluated on the code: with a declared isoforms path that does not
exist, the run dies with AttributeError while formatting the message (the
attribute isoform does not exist), so no message naming the offending path is
printed; the same run with only a missing SAM path shows the intended
behaviour, an exit whose message carries the path. -/
theorem C5_missing_isoforms_message_lost :
    companion_checks c5PathExists c5Args = .attributeError "isoform" ∧
    companion_checks c5PathExists c5SamArgs = .exitWithPathMessage "aln.sam" := by
  constructor <;> rfl

/-! ## The rules subcommand and the undefined name run_rules
(lines 220-228) -/

/-- The names bound at module level in src/sqanti3_filter.py: the imports of
lines 25-30, the module constants of lines 32-35, and the three function
definitions. run_rules is not among them. -/
def module_globals : List String :=
  ["os", "sys", "argparse", "subprocess", "distutils",
   "DictReader", "DictWriter", "SeqIO", "GMAPSAMReader",
   "collapseGFFReader", "write_collapseGFF_format",
   "utilitiesPath", "RSCRIPTPATH", "RSCRIPT_REPORT", "RSCRIPT_ML",
   "filter_files", "run_ML", "main"]

/-- How the rules subcommand body ends. -/
inductive RulesOutcome where
  | exitRunAlengthRange : RulesOutcome
  | nameError (nm : String) : RulesOutcome
  | callsFunction (nm : String) : RulesOutcome
  deriving DecidableEq, Repr

/-- Result of the rules subcommand body: its outcome, and whether control
ever reached the filter_files call of line 228. -/
structure RulesBranchResult where
  outcome : RulesOutcome
  filter_files_called : Bool
  deriving DecidableEq, Repr

/-- The rules subcommand body at lines 222-228: range-check runAlength
(exiting when out of 4-20), then evaluate the call run_rules(args), which
requires the name run_rules to be bound in the module globals; an unbound
name raises NameError there, before any retention set exists and before
filter_files runs. -/
def rules_subcommand (globals : List String) (runAlength : Int) :
    RulesBranchResult :=
  if runAlength < 4 ∨ runAlength > 20 then
    { outcome := .exitRunAlengthRange, filter_files_called := false }
  else if globals.contains "run_rules" then
    { outcome := .callsFunction "run_rules", filter_files_called := true }
  else
    { outcome := .nameError "run_rules", filter_files_called := false }

/-- C10: whenever runAlength passes the range check, the rules subcommand
reaches the unbound name run_rules and fails with NameError, never calling
filter_files, so no retention set is built and no filtered output is
written. -/
theorem C10_run_rules_name_error (runAlength : Int)
    (h1 : 4 ≤ runAlength) (h2 : runAlength ≤ 20) :
    rules_subcommand module_globals runAlength =
      { outcome := .nameError "run_rules", filter_files_called := false } := by
  rw [rules_subcommand, if_neg (by omega), if_neg (by decide)]

/-- Witness for C10 at the default runAlength value 6. -/
theorem C10_run_rules_name_error_witness :
    rules_subcommand module_globals 6 =
      { outcome := .nameError "run_rules", filter_files_called := false } :=
  C10_run_rules_name_error 6 (by norm_num) (by norm_num)

/-! ## The ML retention set (run_ML, lines 108-113) -/

/-- The file system seen by run_ML after the subprocess call: a path maps to
the list of its lines when the file exists, none otherwise. -/
def inclusion_list_path (dir output : String) : String :=
  dir ++ "/" ++ output ++ "_inclusion-list.txt"

/-- Lines 111-113 of run_ML: build the inclusion-list path and open it. When
the file does not exist, open raises and the run dies there (the error value
carries the missing path); otherwise every line is stripped and collected
into the retention set. -/
def run_ML_read (fs : String → Option (List String)) (dir output : String) :
    Except String (List String) :=
  match fs (inclusion_list_path dir output) with
  | none => Except.error (inclusion_list_path dir output)
  | some ls => Except.ok (ls.map String.trim)

/-- C8: when the inclusion-list artifact is absent after the external
invocation, run_ML fails with the missing-output error; when it is present,
the retention set is exactly the stripped lines of the artifact, an
identifier being retained iff some line strips to it. -/
theorem C8_run_ML_inclusion_list (fs : String → Option (List String))
    (dir output : String) :
    (fs (inclusion_list_path dir output) = none →
      run_ML_read fs dir output = Except.error (inclusion_list_path dir output)) ∧
    (∀ ls, fs (inclusion_list_path dir output) = some ls →
      ∃ kept, run_ML_read fs dir output = Except.ok kept ∧
        ∀ s, s ∈ kept ↔ ∃ l ∈ ls, String.trim l = s) := by
  constructor
  · intro h
    rw [run_ML_read, h]
  · intro ls h
    refine ⟨ls.map String.trim, by rw [run_ML_read, h], ?_⟩
    intro s
    simp [List.mem_map]

/-- The file system for the C8 witness: only the inclusion list of one run
exists. -/
def c8FS : String → Option (List String) := fun p =>
  if p = "out/demo_inclusion-list.txt" then some ["PB.1.1\n", "PB.3.1\n"]
  else none

/-- Witness for C8: on a run whose artifact is missing the read fails with
the path, and on one whose artifact exists the retention set is the stripped
lines. -/
theorem C8_run_ML_inclusion_list_witness :
    (run_ML_read c8FS "out" "other" =
      Except.error (inclusion_list_path "out" "other")) ∧
    (∃ kept, run_ML_read c8FS "out" "demo" = Except.ok kept ∧
      ∀ s, s ∈ kept ↔ ∃ l ∈ ["PB.1.1\n", "PB.3.1\n"], String.trim l = s) :=
  ⟨(C8_run_ML_inclusion_list c8FS "out" "other").1 (by decide),
   (C8_run_ML_inclusion_list c8FS "out" "demo").2 ["PB.1.1\n", "PB.3.1\n"]
     (by decide)⟩

end Sqanti3
